import Mathlib

/-!
# Upload/convert session controller (`static/js/script.js`)

A shallow embedding of the browser-side controller.  The two module-level
variables (`uploadedFile`, `selectedFormat`) and the DOM properties the script
reads or writes are the fields of `State`; every handler is a function on
`State`.  An `async` function is cut at its `await fetch(...)`: the part before
the suspension returns the request it issues, the part after it
(`uploadFileResume`, `convertDocumentResume`) takes the state the page is in
when the response arrives, which need not be the state it was suspended in.

Markup is kept as the text the script builds.  What the browser makes of it is
not modelled: reading `innerHTML` back goes through `Engine.innerHTML`, a
parameter, as do the engine's error texts.
-/

namespace SmartDocumentConverter

/-! ## Data model -/

/-- A browser `File` as the script sees it: `name`, `type`, `size`, and the
`serverFilename` property the upload handler adds to the object (line 116);
`none` is JavaScript `undefined`. -/
structure File where
  name : String
  type : String
  size : Nat
  serverFilename : Option String
  deriving DecidableEq, Repr

/-- A `.format-card` element: its `data-format` attribute (`this.dataset.format`,
`none` when the attribute is missing) and whether its class list holds
`selected`. -/
structure FormatCard where
  format : Option String
  selected : Bool
  deriving DecidableEq, Repr

/-- A JSON member that is meant to hold a boolean: missing (`undefined`),
`null`, or a boolean. -/
inductive Flag where
  | undefined
  | null
  | bool (b : Bool)
  deriving DecidableEq, Repr

/-- The preview descriptor of an `/upload` response; every member is optional
in the JSON.  `pages` is a page count, a non-negative integer printed in
decimal. -/
structure Preview where
  type : Option String
  pages : Option Nat
  is_scanned : Flag
  has_tables : Flag
  preview : Option String
  deriving DecidableEq, Repr

/-- JSON body of an `/upload` response. -/
structure UploadResponse where
  status : String
  filename : Option String
  message : Option String
  preview : Option Preview
  deriving DecidableEq, Repr

/-- One element of `downloads`. -/
structure Download where
  name : String
  url : String
  deriving DecidableEq, Repr

/-- JSON body of a `/convert` response. -/
structure ConvertResponse where
  status : String
  downloads : Option (List Download)
  message : Option String
  deriving DecidableEq, Repr

/-- What `await fetch(...)` followed by `await response.json()` yields: the
parsed body, or a rejection whose `error.message` is the given text. -/
inductive Fetched (α : Type) where
  | json (data : α)
  | rejected (message : String)
  deriving DecidableEq, Repr

/-- The body of `POST /upload`: form field `file`. -/
structure UploadRequest where
  file : File
  deriving DecidableEq, Repr

/-- The JSON body of `POST /convert`. -/
structure ConvertRequest where
  filename : String
  format : String
  deriving DecidableEq, Repr

/-- The element or position of the last scroll request. -/
inductive Scroll where
  | resultsSection
  | errorSection
  | top
  deriving DecidableEq, Repr

/-- The script's two variables (lines 21-22) and the DOM state it touches.
A field ending in `Hidden` is membership of `d-none` in the class list;
`previewContent` and `downloadLinks` are what the `innerHTML` getter of the
element returns. -/
structure State where
  uploadedFile : Option File
  selectedFormat : Option String
  formatCards : List FormatCard
  uploadAreaDragover : Bool
  fileInputValue : String
  fileNameText : String
  fileInfoHidden : Bool
  formatSelectionHidden : Bool
  convertBtnHidden : Bool
  convertBtnDisabled : Bool
  previewSectionHidden : Bool
  previewContent : String
  progressSectionHidden : Bool
  progressBarWidth : String
  progressBarText : String
  progressText : String
  resultsSectionHidden : Bool
  downloadLinks : String
  errorSectionHidden : Bool
  errorMessage : String
  scrolledTo : Option Scroll
  deriving DecidableEq, Repr

/-- What the script leaves to the browser: the texts the JavaScript engine
puts in the `TypeError`s the script can raise, `String.prototype.toUpperCase`,
and `innerHTML`, the value the `innerHTML` getter of an element returns once
the setter has been given some markup (the serialisation of what the markup
parses to).  They are parameters of the model. -/
structure Engine where
  setOnNull : String → String
  readOnUndefined : String → String
  toUpperCase : String → String
  innerHTML : String → String

/-- How a callback that is not inside a `try` ends: normally, or with an
exception nobody catches (the state is the one reached when it was thrown). -/
inductive Outcome where
  | completed (s : State)
  | uncaught (message : String) (s : State)

/-! ## JavaScript truthiness -/

/-- Truthiness of a value that is a string, `null` or `undefined`. -/
def truthy : Option String → Bool
  | none => false
  | some v => v != ""

/-- Truthiness of a number or `undefined`. -/
def truthyNumber : Option Nat → Bool
  | none => false
  | some n => n != 0

/-- Truthiness of a boolean, `null` or `undefined`. -/
def truthyFlag : Flag → Bool
  | Flag.bool b => b
  | _ => false

/-! ## Progress and error regions (lines 243-266) -/

def showProgress (text : String) (percent : Nat) (s : State) : State :=
  { s with
    progressSectionHidden := false
    progressBarWidth := toString percent ++ "%"
    progressBarText := toString percent ++ "%"
    progressText := text }

def hideProgress (s : State) : State :=
  { s with progressSectionHidden := true }

/-- Lines 255-262.  `message` is `none` when the caller passes `undefined`
(an absent `data.message`); assigning it to `textContent` leaves the element
empty. -/
def showError (message : Option String) (s : State) : State :=
  { hideProgress
      { s with
        errorSectionHidden := false
        errorMessage := message.getD "" } with
    scrolledTo := some Scroll.errorSection }

def hideError (s : State) : State :=
  { s with errorSectionHidden := true }

/-! ## Format selection (lines 35-42) -/

/-- The click handler of the card at position `i` of
`document.querySelectorAll('.format-card')`. -/
def formatCardClick (i : Nat) (s : State) : State :=
  match s.formatCards[i]? with
  | none => s
  | some card =>
    { s with
      formatCards :=
        (s.formatCards.map fun c => { c with selected := false }).set i
          { card with selected := true }
      selectedFormat := card.format
      convertBtnDisabled := false }

/-! ## Drag and drop, file selection (lines 45-71) -/

def handleDragOver (s : State) : State :=
  { s with uploadAreaDragover := true }

def handleDragLeave (s : State) : State :=
  { s with uploadAreaDragover := false }

/-! ## Processing and uploading a file (lines 74-131) -/

def validTypes : List String :=
  ["application/pdf", "image/png", "image/jpeg", "image/jpg"]

def maxSize : Nat := 16 * 1024 * 1024

/-- Lines 101-111: `uploadFile` up to its `await fetch('/upload', ...)`. -/
def uploadFile (file : File) (s : State) : State × Option UploadRequest :=
  (showProgress "Uploading file..." 20 s, some { file := file })

/-- Lines 74-98.  The second component is the `/upload` request issued, if
any. -/
def processFile (file : File) (s : State) : State × Option UploadRequest :=
  if !validTypes.contains file.type then
    (showError (some "Invalid file type. Please upload PDF, PNG, or JPG files.") s, none)
  else if file.size > maxSize then
    (showError (some "File size exceeds 16MB limit.") s, none)
  else
    uploadFile file
      { s with
        uploadedFile := some file
        fileNameText := file.name
        fileInfoHidden := false
        formatSelectionHidden := false
        convertBtnHidden := false }

/-- Lines 55-63 with `files` the dropped file list. -/
def handleDrop (files : List File) (s : State) : State × Option UploadRequest :=
  match files with
  | [] => (handleDragLeave s, none)
  | file :: _ => processFile file (handleDragLeave s)

/-- Lines 66-71. -/
def handleFileSelect (files : List File) (s : State) : State × Option UploadRequest :=
  match files with
  | [] => (s, none)
  | file :: _ => processFile file s

/-- Lines 134-173.  `preview.type.toUpperCase()` throws when `type` is
`undefined`; the class change of line 135 has happened by then.  The test of
line 147 is `!== undefined`, so a `null` flag prints the line too. -/
def showPreview (eng : Engine) (preview : Preview) (s : State) : Except (String × State) State :=
  let s1 := { s with previewSectionHidden := false }
  match preview.type with
  | none => Except.error (eng.readOnUndefined "toUpperCase", s1)
  | some t =>
    let previewHTML :=
      "\n        <div class=\"mb-3\">\n            <strong>Type:</strong> " ++
        eng.toUpperCase t ++ "\n        </div>\n    "
    let previewHTML :=
      if truthyNumber preview.pages then
        previewHTML ++ "<div class=\"mb-3\"><strong>Pages:</strong> " ++
          toString (preview.pages.getD 0) ++ "</div>"
      else previewHTML
    let previewHTML :=
      if preview.is_scanned ≠ Flag.undefined then
        previewHTML ++
          "\n            <div class=\"mb-3\">\n                <strong>Document Type:</strong> " ++
          (if truthyFlag preview.is_scanned then "Scanned (Image-based)"
            else "Digital (Text-based)") ++
          "\n            </div>\n        "
      else previewHTML
    let previewHTML :=
      if truthyFlag preview.has_tables then
        previewHTML ++
          "\n            <div class=\"alert alert-info\">\n                <i class=\"bi bi-table\"></i> Tables detected in document\n            </div>\n        "
      else previewHTML
    let previewHTML :=
      if truthy preview.preview then
        previewHTML ++
          "\n            <div class=\"mt-3\">\n                <strong>Preview:</strong>\n                <div class=\"preview-text mt-2\">" ++
          preview.preview.getD "" ++ "</div>\n            </div>\n        "
      else previewHTML
    Except.ok { s1 with previewContent := eng.innerHTML previewHTML }

/-- The `try` block of `uploadFile` after the response has arrived
(lines 113-127), run in the state `s` of that moment. -/
def uploadFileTry (eng : Engine) (data : UploadResponse) (s : State) :
    Except (String × State) State :=
  if data.status = "success" then
    match s.uploadedFile with
    | none => Except.error (eng.setOnNull "serverFilename", s)
    | some f =>
      let s1 := showProgress "File uploaded successfully" 40
        { s with uploadedFile := some { f with serverFilename := data.filename } }
      match data.preview with
      | none => Except.ok (hideProgress s1)
      | some p =>
        match showPreview eng p s1 with
        | Except.error e => Except.error e
        | Except.ok s2 => Except.ok (hideProgress s2)
  else
    Except.ok (showError data.message s)

/-- Lines 113-130: `uploadFile(file)` from the point where the awaited
response is available, with its `catch`.  `_file` is the argument the call was
made with; nothing after the `await` reads it. -/
def uploadFileResume (eng : Engine) (_file : File) (fetched : Fetched UploadResponse)
    (s : State) : State :=
  match fetched with
  | Fetched.rejected m => showError (some ("Upload failed: " ++ m)) s
  | Fetched.json data =>
    match uploadFileTry eng data s with
    | Except.ok s1 => s1
    | Except.error (m, s1) => showError (some ("Upload failed: " ++ m)) s1

/-! ## Converting (lines 176-240) -/

/-- The operand `uploadedFile.serverFilename` of line 177, `none` when either
`uploadedFile` or the property is missing. -/
def serverFilenameOf (s : State) : Option String :=
  s.uploadedFile.bind fun f => f.serverFilename

/-- Lines 176-195: `convertDocument` up to its `await fetch('/convert', ...)`.
The second component is the request issued, if any. -/
def convertDocument (s : State) : State × Option ConvertRequest :=
  if !s.uploadedFile.isSome || !truthy (serverFilenameOf s) || !truthy s.selectedFormat then
    (showError (some "Please upload a file and select output format") s, none)
  else
    (showProgress "Converting document..." 50 (hideError s),
      some
        { filename := (serverFilenameOf s).getD ""
          format := s.selectedFormat.getD "" })

/-- The argument captured by the `setTimeout` callback of lines 201-204:
`data.downloads`, `none` when the response has no such member. -/
structure Timeout where
  downloads : Option (List Download)
  deriving DecidableEq, Repr

/-- Lines 197-210: `convertDocument` from the point where the awaited response
is available, with its `catch`.  The second component is the timer it
schedules, if any. -/
def convertDocumentResume (fetched : Fetched ConvertResponse) (s : State) :
    State × Option Timeout :=
  match fetched with
  | Fetched.rejected m => (showError (some ("Conversion failed: " ++ m)) s, none)
  | Fetched.json data =>
    if data.status = "success" then
      (showProgress "Conversion complete!" 100 s, some { downloads := data.downloads })
    else
      (showError data.message s, none)

/-- The test `download.name.endsWith('.docx')` of line 219. -/
def endsWithDocx (name : String) : Bool :=
  ".docx".toList.isSuffixOf name.toList

/-- Lines 219-233: the markup built for one download; `name` and `url` are
interpolated as they are. -/
def linkHTML (download : Download) : String :=
  let fileType := if endsWithDocx download.name then "word" else "excel"
  let icon := if fileType = "word" then "bi-file-word" else "bi-file-excel"
  let color := if fileType = "word" then "primary" else "success"
  "\n            <div class=\"download-link\">\n                <div>\n                    <i class=\"bi " ++
    icon ++ "\"></i>\n                    <span>" ++
    download.name ++ "</span>\n                </div>\n                <a href=\"" ++
    download.url ++ "\" class=\"btn btn-" ++
    color ++
    "\" download>\n                    <i class=\"bi bi-download\"></i> Download\n                </a>\n            </div>\n        "

/-- Lines 214-240.  `downloads.forEach` throws when `downloads` is
`undefined`; lines 215-216 have run by then.  Line 235 reads `innerHTML`,
appends the markup and assigns the result. -/
def showResults (eng : Engine) (downloads : Option (List Download)) (s : State) :
    Except (String × State) State :=
  let s1 := { s with resultsSectionHidden := false, downloadLinks := eng.innerHTML "" }
  match downloads with
  | none => Except.error (eng.readOnUndefined "forEach", s1)
  | some ds =>
    let s2 := ds.foldl
      (fun acc download =>
        { acc with downloadLinks := eng.innerHTML (acc.downloadLinks ++ linkHTML download) })
      s1
    Except.ok { s2 with scrolledTo := some Scroll.resultsSection }

/-- Lines 201-204: the callback handed to `setTimeout`, which runs outside the
`try` of `convertDocument`. -/
def showResultsTimeout (eng : Engine) (t : Timeout) (s : State) : Outcome :=
  match showResults eng t.downloads (hideProgress s) with
  | Except.ok s1 => Outcome.completed s1
  | Except.error (m, s1) => Outcome.uncaught m s1

/-- Line 31 as the browser applies it: a click reaches `convertDocument` only
when the button is neither disabled nor removed from the layout by `d-none`. -/
def convertBtnClick (s : State) : State × Option ConvertRequest :=
  if s.convertBtnDisabled || s.convertBtnHidden then (s, none) else convertDocument s

/-! ## Removing the file and resetting (lines 269-292) -/

def removeFile (s : State) : State :=
  { s with
    uploadedFile := none
    selectedFormat := none
    fileInfoHidden := true
    formatSelectionHidden := true
    convertBtnHidden := true
    previewSectionHidden := true
    fileInputValue := ""
    formatCards := s.formatCards.map fun c => { c with selected := false } }

def resetForm (s : State) : State :=
  { hideProgress (hideError { removeFile s with resultsSectionHidden := true }) with
    scrolledTo := some Scroll.top }

/-! ## Predicates used in the statements -/

/-- The session states line 177 is written for: no staged file, a staged file
without `serverFilename`, or no selected format. -/
def Blocked (s : State) : Prop :=
  s.uploadedFile = none ∨ serverFilenameOf s = none ∨ s.selectedFormat = none

instance (s : State) : Decidable (Blocked s) :=
  inferInstanceAs
    (Decidable (s.uploadedFile = none ∨ serverFilenameOf s = none ∨ s.selectedFormat = none))

/-- The number of cards whose class list holds `selected`. -/
def selectedCount (s : State) : Nat :=
  s.formatCards.countP fun c => c.selected

/-- A page as the markup is expected to deliver it, with the given format
cards: nothing staged, every region but the upload area hidden, the convert
button disabled.  Used only to build concrete runs. -/
def pageLoad (cards : List FormatCard) : State :=
  { uploadedFile := none
    selectedFormat := none
    formatCards := cards
    uploadAreaDragover := false
    fileInputValue := ""
    fileNameText := ""
    fileInfoHidden := true
    formatSelectionHidden := true
    convertBtnHidden := true
    convertBtnDisabled := true
    previewSectionHidden := true
    previewContent := ""
    progressSectionHidden := true
    progressBarWidth := "0%"
    progressBarText := ""
    progressText := ""
    resultsSectionHidden := true
    downloadLinks := ""
    errorSectionHidden := true
    errorMessage := ""
    scrolledTo := none }

/-! ## Concrete inputs -/

/-- A 2 MB PDF that has not been uploaded. -/
def reportPdf : File :=
  { name := "report.pdf", type := "application/pdf", size := 2097152, serverFilename := none }

/-- A PNG of exactly 16 MiB. -/
def scanPng : File :=
  { name := "scan.png", type := "image/png", size := 16777216, serverFilename := none }

/-- A PDF one byte over the limit. -/
def hugePdf : File :=
  { name := "huge.pdf", type := "application/pdf", size := 16777217, serverFilename := none }

/-- A text file. -/
def notesTxt : File :=
  { name := "notes.txt", type := "text/plain", size := 12, serverFilename := none }

/-- The two format cards of a page offering Word and Excel output. -/
def twoCards : List FormatCard :=
  [{ format := some "docx", selected := false }, { format := some "xlsx", selected := false }]

/-- The server's answer of the spec's failure scenario. -/
def corruptFile : UploadResponse :=
  { status := "error", filename := none, message := some "corrupt file", preview := none }

/-- An engine for the concrete runs below: V8's wording of the two
`TypeError`s, an upper-casing that is JavaScript's on ASCII text (the runs
use `pdf` only), and an `innerHTML` getter that returns markup as assigned. -/
def v8 : Engine :=
  { setOnNull := fun p => "Cannot set properties of null (setting '" ++ p ++ "')"
    readOnUndefined := fun p => "Cannot read properties of undefined (reading '" ++ p ++ "')"
    toUpperCase := String.toUpper
    innerHTML := fun markup => markup }

/-- The files `processFile` stages: an accepted type and at most `maxSize`
bytes. -/
def Accepted (file : File) : Prop :=
  file.type ∈ validTypes ∧ file.size ≤ maxSize

instance (file : File) : Decidable (Accepted file) :=
  inferInstanceAs (Decidable (file.type ∈ validTypes ∧ file.size ≤ maxSize))

/-- The state an `Outcome` ends in. -/
def Outcome.state : Outcome → State
  | Outcome.completed s => s
  | Outcome.uncaught _ s => s

/-- The `/upload` answer of the spec's first scenario. -/
def uploadedAbc : UploadResponse :=
  { status := "success"
    filename := some "abc.pdf"
    message := none
    preview := some
      { type := some "pdf", pages := some 3, is_scanned := Flag.bool false,
        has_tables := Flag.undefined, preview := none } }

/-- The `/convert` answer of the spec's second scenario. -/
def convertedOut : ConvertResponse :=
  { status := "success"
    downloads := some [{ name := "out.docx", url := "/dl/out.docx" }]
    message := none }

/-- A `/convert` answer that reports success and has no `downloads` member. -/
def convertedBare : ConvertResponse :=
  { status := "success", downloads := none, message := none }

/-- The page after: load, select `reportPdf`, upload answered by `uploadedAbc`,
click on the first format card. -/
def readyToConvert : State :=
  formatCardClick 0
    (uploadFileResume v8 reportPdf (Fetched.json uploadedAbc)
      (processFile reportPdf (pageLoad twoCards)).1)

/-- The page after a completed conversion: from `readyToConvert`, convert,
answer `convertedOut`, and the delayed callback. -/
def afterConversion : State :=
  (showResultsTimeout v8 { downloads := convertedOut.downloads }
    (convertDocumentResume (Fetched.json convertedOut) (convertDocument readyToConvert).1).1).state

/-- The template of lines 223-233 with its four holes filled. -/
def linkTemplate (icon name url color : String) : String :=
  "\n            <div class=\"download-link\">\n                <div>\n                    <i class=\"bi " ++
    icon ++ "\"></i>\n                    <span>" ++
    name ++ "</span>\n                </div>\n                <a href=\"" ++
    url ++ "\" class=\"btn btn-" ++
    color ++
    "\" download>\n                    <i class=\"bi bi-download\"></i> Download\n                </a>\n            </div>\n        "

/-- The text of the template between the name and the url. -/
def linkMiddle : String :=
  "</span>\n                </div>\n                <a href=\""

/-- A download whose url holds the template's middle text. -/
def markupInUrl : Download :=
  { name := "x", url := "y" ++ linkMiddle ++ "z" }

/-- A download whose name holds the template's middle text. -/
def markupInName : Download :=
  { name := "x" ++ linkMiddle ++ "y", url := "z" }

/-! ## Auxiliary facts -/

theorem convertDocument_eq_of_blocked (s : State) (h : Blocked s) :
    convertDocument s =
      (showError (some "Please upload a file and select output format") s, none) := by
  unfold convertDocument
  rcases h with h | h | h <;> simp [h, truthy]

theorem blocked_showError (m : Option String) (s : State) (h : Blocked s) :
    Blocked (showError m s) := by
  unfold Blocked serverFilenameOf at *
  simpa [showError, hideProgress] using h

theorem showError_showError (m : Option String) (s : State) :
    showError m (showError m s) = showError m s := by
  simp [showError, hideProgress]

theorem blocked_removeFile (s : State) : Blocked (removeFile s) :=
  Or.inl rfl

/-! ## Convert without its prerequisites -/

/-- C1: in every state where `uploadedFile`, its `serverFilename` or
`selectedFormat` is absent, `convertDocument` issues no `/convert` request,
keeps `uploadedFile` and `selectedFormat`, and shows the validation error;
doing it again changes nothing further; and the state left by `removeFile`
is always such a state, so convert right after remove-file gives that error. -/
theorem convertDocument_blocked (s t : State) (h : Blocked s) :
    (convertDocument s).2 = none ∧
    (convertDocument s).1.uploadedFile = s.uploadedFile ∧
    (convertDocument s).1.selectedFormat = s.selectedFormat ∧
    (convertDocument s).1.errorSectionHidden = false ∧
    (convertDocument s).1.errorMessage = "Please upload a file and select output format" ∧
    convertDocument (convertDocument s).1 = convertDocument s ∧
    Blocked (removeFile t) ∧
    (convertDocument (removeFile t)).2 = none ∧
    (convertDocument (removeFile t)).1.uploadedFile = none ∧
    (convertDocument (removeFile t)).1.selectedFormat = none ∧
    (convertDocument (removeFile t)).1.errorSectionHidden = false ∧
    (convertDocument (removeFile t)).1.errorMessage =
      "Please upload a file and select output format" ∧
    convertDocument (convertDocument (removeFile t)).1 = convertDocument (removeFile t) := by
  have key : ∀ u : State, Blocked u →
      (convertDocument u).2 = none ∧
      (convertDocument u).1.uploadedFile = u.uploadedFile ∧
      (convertDocument u).1.selectedFormat = u.selectedFormat ∧
      (convertDocument u).1.errorSectionHidden = false ∧
      (convertDocument u).1.errorMessage = "Please upload a file and select output format" ∧
      convertDocument (convertDocument u).1 = convertDocument u := by
    intro u hu
    have e := convertDocument_eq_of_blocked u hu
    have e2 := convertDocument_eq_of_blocked _ (blocked_showError
      (some "Please upload a file and select output format") u hu)
    rw [e]
    refine ⟨rfl, rfl, rfl, rfl, rfl, ?_⟩
    show convertDocument (showError _ u) = _
    rw [e2, showError_showError]
  obtain ⟨a1, a2, a3, a4, a5, a6⟩ := key s h
  obtain ⟨b1, b2, b3, b4, b5, b6⟩ := key (removeFile t) (blocked_removeFile t)
  exact ⟨a1, a2, a3, a4, a5, a6, blocked_removeFile t, b1, b2, b3, b4, b5, b6⟩

theorem convertDocument_blocked_witness :
    Blocked (processFile reportPdf (pageLoad twoCards)).1 ∧
    (convertDocument (processFile reportPdf (pageLoad twoCards)).1).2 = none ∧
    (convertDocument (processFile reportPdf (pageLoad twoCards)).1).1.errorMessage =
      "Please upload a file and select output format" ∧
    (convertDocument (removeFile (pageLoad twoCards))).2 = none :=
  have h : Blocked (processFile reportPdf (pageLoad twoCards)).1 := by decide
  ⟨h, (convertDocument_blocked _ (pageLoad twoCards) h).1,
    (convertDocument_blocked _ (pageLoad twoCards) h).2.2.2.2.1,
    (convertDocument_blocked _ (pageLoad twoCards) h).2.2.2.2.2.2.2.1⟩

/-! ## Validation in `processFile` -/

theorem processFile_eq_of_accepted (file : File) (s : State) (h : Accepted file) :
    processFile file s =
      (showProgress "Uploading file..." 20
        { s with
          uploadedFile := some file
          fileNameText := file.name
          fileInfoHidden := false
          formatSelectionHidden := false
          convertBtnHidden := false },
       some { file := file }) := by
  obtain ⟨h1, h2⟩ := h
  unfold processFile uploadFile
  simp [h1, Nat.not_lt.mpr h2]

/-- C2: a file whose MIME type is none of the four accepted ones is rejected
in every state: the invalid-type message is shown, no upload is issued, and
`uploadedFile` and `selectedFormat` are what they were (the whole effect is
that of `showError`). -/
theorem processFile_invalid_type (file : File) (s : State)
    (h : file.type ≠ "application/pdf" ∧ file.type ≠ "image/png" ∧
      file.type ≠ "image/jpeg" ∧ file.type ≠ "image/jpg") :
    processFile file s =
      (showError (some "Invalid file type. Please upload PDF, PNG, or JPG files.") s, none) ∧
    (processFile file s).2 = none ∧
    (processFile file s).1.uploadedFile = s.uploadedFile ∧
    (processFile file s).1.selectedFormat = s.selectedFormat ∧
    (processFile file s).1.errorSectionHidden = false ∧
    (processFile file s).1.errorMessage =
      "Invalid file type. Please upload PDF, PNG, or JPG files." := by
  have e : processFile file s =
      (showError (some "Invalid file type. Please upload PDF, PNG, or JPG files.") s, none) := by
    obtain ⟨h1, h2, h3, h4⟩ := h
    unfold processFile
    simp [validTypes, h1, h2, h3, h4]
  rw [e]
  exact ⟨rfl, rfl, rfl, rfl, rfl, rfl⟩

theorem processFile_invalid_type_witness :
    (processFile notesTxt (pageLoad twoCards)).2 = none ∧
    (processFile notesTxt (pageLoad twoCards)).1.uploadedFile = none ∧
    (processFile notesTxt (pageLoad twoCards)).1.errorMessage =
      "Invalid file type. Please upload PDF, PNG, or JPG files." :=
  have h := processFile_invalid_type notesTxt (pageLoad twoCards) (by decide)
  ⟨h.2.1, h.2.2.1, h.2.2.2.2.2⟩

/-- C3: the limit is 16777216 bytes; a larger file is rejected whatever its
type, with no upload and `uploadedFile`, `selectedFormat` untouched; a file of
an accepted type and at most 16777216 bytes is staged, its upload is issued,
and the error region is left alone. -/
theorem processFile_size_limit (file : File) (s : State) :
    maxSize = 16777216 ∧
    (16777216 < file.size →
      (processFile file s).2 = none ∧
      (processFile file s).1.uploadedFile = s.uploadedFile ∧
      (processFile file s).1.selectedFormat = s.selectedFormat ∧
      (processFile file s).1.errorSectionHidden = false ∧
      (file.type ∈ validTypes →
        (processFile file s).1.errorMessage = "File size exceeds 16MB limit.")) ∧
    (file.type ∈ validTypes → file.size ≤ 16777216 →
      (processFile file s).2 = some { file := file } ∧
      (processFile file s).1.uploadedFile = some file ∧
      (processFile file s).1.selectedFormat = s.selectedFormat ∧
      (processFile file s).1.errorSectionHidden = s.errorSectionHidden ∧
      (processFile file s).1.errorMessage = s.errorMessage) := by
  refine ⟨rfl, ?_, ?_⟩
  · intro hbig
    have hbig' : file.size > maxSize := hbig
    by_cases hv : file.type ∈ validTypes
    · have e : processFile file s =
          (showError (some "File size exceeds 16MB limit.") s, none) := by
        unfold processFile
        simp [hv, hbig']
      rw [e]
      exact ⟨rfl, rfl, rfl, rfl, fun _ => rfl⟩
    · have e : processFile file s =
          (showError (some "Invalid file type. Please upload PDF, PNG, or JPG files.") s,
            none) := by
        unfold processFile
        simp [hv]
      rw [e]
      exact ⟨rfl, rfl, rfl, rfl, fun hm => absurd hm hv⟩
  · intro hv hs
    rw [processFile_eq_of_accepted file s ⟨hv, hs⟩]
    exact ⟨rfl, rfl, rfl, rfl, rfl⟩

theorem processFile_size_limit_witness :
    ((processFile hugePdf (pageLoad twoCards)).2 = none ∧
      (processFile hugePdf (pageLoad twoCards)).1.uploadedFile = none) ∧
    ((processFile scanPng (pageLoad twoCards)).2 = some { file := scanPng } ∧
      (processFile scanPng (pageLoad twoCards)).1.uploadedFile = some scanPng) :=
  have big := (processFile_size_limit hugePdf (pageLoad twoCards)).2.1 (by decide)
  have ok := (processFile_size_limit scanPng (pageLoad twoCards)).2.2 (by decide) (by decide)
  ⟨⟨big.1, big.2.1⟩, ⟨ok.1, ok.2.1⟩⟩

/-! ## Reset -/

/-- C7: from every state `resetForm` leaves `uploadedFile` and
`selectedFormat` absent, hides the results, error and progress regions and the
file-info, format-selection, convert-button and preview regions, leaves no
format card marked selected (the cards themselves stay), and scrolls to the
top. -/
theorem resetForm_clears (s : State) :
    (resetForm s).uploadedFile = none ∧
    (resetForm s).selectedFormat = none ∧
    (resetForm s).resultsSectionHidden = true ∧
    (resetForm s).errorSectionHidden = true ∧
    (resetForm s).progressSectionHidden = true ∧
    (resetForm s).fileInfoHidden = true ∧
    (resetForm s).formatSelectionHidden = true ∧
    (resetForm s).convertBtnHidden = true ∧
    (resetForm s).previewSectionHidden = true ∧
    (∀ c ∈ (resetForm s).formatCards, c.selected = false) ∧
    selectedCount (resetForm s) = 0 ∧
    (resetForm s).formatCards.map (fun c => c.format) = s.formatCards.map (fun c => c.format) ∧
    (resetForm s).scrolledTo = some Scroll.top := by
  have hc : ∀ c ∈ (resetForm s).formatCards, c.selected = false := by
    intro c hc
    simp only [resetForm, removeFile, hideProgress, hideError, List.mem_map] at hc
    obtain ⟨c0, _, rfl⟩ := hc
    rfl
  refine ⟨rfl, rfl, rfl, rfl, rfl, rfl, rfl, rfl, rfl, hc, ?_, ?_, rfl⟩
  · unfold selectedCount
    rw [List.countP_eq_zero]
    intro c hmem
    simp [hc c hmem]
  · simp [resetForm, removeFile, hideProgress, hideError, Function.comp_def]

/-! ## The upload response handler -/

theorem uploadFileResume_of_failure (eng : Engine) (file : File) (data : UploadResponse)
    (s : State) (h : data.status ≠ "success") :
    uploadFileResume eng file (Fetched.json data) s = showError data.message s := by
  simp [uploadFileResume, uploadFileTry, h]

/-- C5: when the `/upload` response has a status other than `success`, the
handler ends with the error region visible and showing the response's message
verbatim, the progress region hidden, and `uploadedFile` (with whatever
`serverFilename` it had) and `selectedFormat` as they were when the response
arrived; after `processFile` of an accepted file that carries no
`serverFilename`, that file is still staged with none. -/
theorem uploadFile_failure_keeps_session (eng : Engine) (file : File)
    (data : UploadResponse) (s : State) (h : data.status ≠ "success") :
    (uploadFileResume eng file (Fetched.json data) s).errorSectionHidden = false ∧
    (∀ m, data.message = some m →
      (uploadFileResume eng file (Fetched.json data) s).errorMessage = m) ∧
    (uploadFileResume eng file (Fetched.json data) s).progressSectionHidden = true ∧
    (uploadFileResume eng file (Fetched.json data) s).uploadedFile = s.uploadedFile ∧
    (uploadFileResume eng file (Fetched.json data) s).selectedFormat = s.selectedFormat ∧
    (Accepted file → file.serverFilename = none →
      (uploadFileResume eng file (Fetched.json data) (processFile file s).1).uploadedFile =
        some file ∧
      serverFilenameOf (uploadFileResume eng file (Fetched.json data) (processFile file s).1) =
        none ∧
      (uploadFileResume eng file (Fetched.json data) (processFile file s).1).selectedFormat =
        s.selectedFormat ∧
      (uploadFileResume eng file (Fetched.json data) (processFile file s).1).errorSectionHidden =
        false ∧
      (uploadFileResume eng file (Fetched.json data) (processFile file s).1).progressSectionHidden =
        true) := by
  rw [uploadFileResume_of_failure eng file data s h]
  refine ⟨rfl, ?_, rfl, rfl, rfl, ?_⟩
  · intro m hm
    simp [showError, hideProgress, hm]
  · intro hacc hnone
    rw [uploadFileResume_of_failure eng file data _ h, processFile_eq_of_accepted file s hacc]
    refine ⟨rfl, ?_, rfl, rfl, rfl⟩
    simpa [serverFilenameOf, showError, hideProgress, showProgress] using hnone

theorem uploadFile_failure_keeps_session_witness :
    (uploadFileResume v8 reportPdf (Fetched.json corruptFile)
      (processFile reportPdf (pageLoad twoCards)).1).errorMessage = "corrupt file" ∧
    (uploadFileResume v8 reportPdf (Fetched.json corruptFile)
      (processFile reportPdf (pageLoad twoCards)).1).uploadedFile = some reportPdf :=
  have h := uploadFile_failure_keeps_session v8 reportPdf corruptFile
    (processFile reportPdf (pageLoad twoCards)).1 (by decide)
  have g := uploadFile_failure_keeps_session v8 reportPdf corruptFile
    (pageLoad twoCards) (by decide)
  ⟨h.2.1 "corrupt file" rfl, (g.2.2.2.2.2 (by decide) rfl).1⟩

theorem uploadFileTry_uploadedFile (eng : Engine) (data : UploadResponse) (s : State)
    (g : File) (hs : s.uploadedFile = some g) (h : data.status = "success") :
    (∀ r, uploadFileTry eng data s = Except.ok r →
      r.uploadedFile = some { g with serverFilename := data.filename }) ∧
    (∀ m r, uploadFileTry eng data s = Except.error (m, r) →
      r.uploadedFile = some { g with serverFilename := data.filename }) := by
  constructor
  · intro r hr
    cases hp : data.preview with
    | none =>
      simp only [uploadFileTry, h, if_true, hs, hp] at hr
      cases hr; rfl
    | some p =>
      cases ht : p.type with
      | none => simp [uploadFileTry, h, hs, hp, showPreview, ht] at hr
      | some ty =>
        simp only [uploadFileTry, h, if_true, hs, hp, showPreview, ht] at hr
        cases hr; rfl
  · intro m r hr
    cases hp : data.preview with
    | none => simp [uploadFileTry, h, hs, hp] at hr
    | some p =>
      cases ht : p.type with
      | none =>
        simp only [uploadFileTry, h, if_true, hs, hp, showPreview, ht] at hr
        cases hr; rfl
      | some ty => simp [uploadFileTry, h, hs, hp, showPreview, ht] at hr

/-- C10: on a `success` response the handler binds `data.filename` to the file
staged when the response arrives, whatever file the request was sent with: a
file staged while the request was pending receives it; and when nothing is
staged then (`removeFile` ran meanwhile) nothing is bound and the handler ends
in the error state with a message that starts with `Upload failed: `. -/
theorem uploadFile_success_binds_staged (eng : Engine) (sent other : File)
    (data : UploadResponse) (s : State) (h : data.status = "success") :
    (∀ g, s.uploadedFile = some g →
      (uploadFileResume eng sent (Fetched.json data) s).uploadedFile =
        some { g with serverFilename := data.filename }) ∧
    (s.uploadedFile = none →
      (uploadFileResume eng sent (Fetched.json data) s).uploadedFile = none ∧
      (uploadFileResume eng sent (Fetched.json data) s).errorSectionHidden = false ∧
      (uploadFileResume eng sent (Fetched.json data) s).errorMessage =
        "Upload failed: " ++ eng.setOnNull "serverFilename") ∧
    (Accepted sent → Accepted other →
      (uploadFileResume eng sent (Fetched.json data)
        (processFile other (processFile sent s).1).1).uploadedFile =
          some { other with serverFilename := data.filename }) ∧
    (Accepted sent →
      (uploadFileResume eng sent (Fetched.json data)
        (removeFile (processFile sent s).1)).uploadedFile = none ∧
      (uploadFileResume eng sent (Fetched.json data)
        (removeFile (processFile sent s).1)).errorSectionHidden = false ∧
      (uploadFileResume eng sent (Fetched.json data)
        (removeFile (processFile sent s).1)).errorMessage =
          "Upload failed: " ++ eng.setOnNull "serverFilename") := by
  have bind : ∀ (u : State) (g : File), u.uploadedFile = some g →
      (uploadFileResume eng sent (Fetched.json data) u).uploadedFile =
        some { g with serverFilename := data.filename } := by
    intro u g hg
    obtain ⟨hok, herr⟩ := uploadFileTry_uploadedFile eng data u g hg h
    cases hr : uploadFileTry eng data u with
    | ok r =>
      simp only [uploadFileResume, hr]
      exact hok r hr
    | error e =>
      obtain ⟨m, r⟩ := e
      simp only [uploadFileResume, hr]
      exact herr m r hr
  have unbound : ∀ u : State, u.uploadedFile = none →
      (uploadFileResume eng sent (Fetched.json data) u).uploadedFile = none ∧
      (uploadFileResume eng sent (Fetched.json data) u).errorSectionHidden = false ∧
      (uploadFileResume eng sent (Fetched.json data) u).errorMessage =
        "Upload failed: " ++ eng.setOnNull "serverFilename" := by
    intro u hu
    have e : uploadFileTry eng data u = Except.error (eng.setOnNull "serverFilename", u) := by
      simp [uploadFileTry, h, hu]
    simp only [uploadFileResume, e]
    exact ⟨hu, rfl, rfl⟩
  refine ⟨bind s, unbound s, ?_, ?_⟩
  · intro ha hb
    apply bind
    rw [processFile_eq_of_accepted other _ hb]
    rfl
  · intro _
    exact unbound _ rfl

theorem uploadFile_success_binds_staged_witness :
    (uploadFileResume v8 reportPdf
      (Fetched.json { status := "success", filename := some "abc.pdf", message := none,
                      preview := none })
      (processFile scanPng (processFile reportPdf (pageLoad twoCards)).1).1).uploadedFile =
        some { scanPng with serverFilename := some "abc.pdf" } ∧
    (uploadFileResume v8 reportPdf
      (Fetched.json { status := "success", filename := some "abc.pdf", message := none,
                      preview := none })
      (removeFile (processFile reportPdf (pageLoad twoCards)).1)).errorMessage =
        "Upload failed: " ++ v8.setOnNull "serverFilename" :=
  have h := uploadFile_success_binds_staged v8 reportPdf scanPng
    { status := "success", filename := some "abc.pdf", message := none, preview := none }
    (pageLoad twoCards) rfl
  ⟨h.2.2.1 (by decide) (by decide), (h.2.2.2 (by decide)).2.2⟩

/-! ## Format selection -/

theorem formatCardClick_eq (i : Nat) (s : State) (hi : i < s.formatCards.length) :
    formatCardClick i s =
      { s with
        formatCards :=
          (s.formatCards.map fun c => { c with selected := false }).set i
            { s.formatCards[i] with selected := true }
        selectedFormat := s.formatCards[i].format
        convertBtnDisabled := false } := by
  simp [formatCardClick, List.getElem?_eq_getElem hi]

theorem formatCardClick_length (i : Nat) (s : State) :
    (formatCardClick i s).formatCards.length = s.formatCards.length := by
  unfold formatCardClick
  cases s.formatCards[i]? <;> simp

theorem formatCardClick_getElem? (i : Nat) (s : State) (hi : i < s.formatCards.length)
    (k : Nat) :
    (formatCardClick i s).formatCards[k]? =
      (s.formatCards[k]?).map fun (c : FormatCard) => { c with selected := decide (i = k) } := by
  rw [formatCardClick_eq i s hi]
  simp only [List.getElem?_set, List.length_map, List.getElem?_map]
  by_cases hik : i = k
  · subst hik
    simp [hi, List.getElem?_eq_getElem hi]
  · simp [hik]

theorem countP_set_of_none {α : Type} (p : α → Bool) (x : α) (hx : p x = true) :
    ∀ (l : List α) (i : Nat), i < l.length → (∀ c ∈ l, p c = false) →
      (l.set i x).countP p = 1
  | [], i, hi, _ => absurd hi (Nat.not_lt_zero i)
  | c :: l, 0, _, hl => by
    have h0 : l.countP p = 0 := by
      rw [List.countP_eq_zero]
      intro d hd
      simp [hl d (List.mem_cons_of_mem c hd)]
    simp [List.countP_cons, hx, h0]
  | c :: l, i + 1, hi, hl => by
    have hc : p c = false := hl c (List.mem_cons_self c l)
    have ih := countP_set_of_none p x hx l i (Nat.lt_of_succ_lt_succ hi)
      (fun d hd => hl d (List.mem_cons_of_mem c hd))
    simp [List.countP_cons, hc, ih]

theorem formatCardClick_selectedCount (i : Nat) (s : State) (hi : i < s.formatCards.length) :
    selectedCount (formatCardClick i s) = 1 := by
  rw [formatCardClick_eq i s hi]
  unfold selectedCount
  apply countP_set_of_none
  · rfl
  · simpa using hi
  · intro c hc
    simp only [List.mem_map] at hc
    obtain ⟨c0, _, rfl⟩ := hc
    rfl

/-- C6: for any cards and any two of them, at positions `a` and `b` (possibly
the same), clicking `a` and then `b` leaves exactly one card marked selected,
the one at `b`; `selectedFormat` is that card's format tag and the convert
button is enabled.  The cards keep their number and their tags. -/
theorem formatCardClick_twice_selects_last (s : State) (a b : Nat)
    (ha : a < s.formatCards.length) (hb : b < s.formatCards.length) :
    (formatCardClick b (formatCardClick a s)).formatCards.length = s.formatCards.length ∧
    (∀ k c, (formatCardClick b (formatCardClick a s)).formatCards[k]? = some c →
      (c.selected = true ↔ k = b)) ∧
    selectedCount (formatCardClick b (formatCardClick a s)) = 1 ∧
    (formatCardClick b (formatCardClick a s)).formatCards.map (fun c => c.format) =
      s.formatCards.map (fun c => c.format) ∧
    (formatCardClick b (formatCardClick a s)).selectedFormat = s.formatCards[b].format ∧
    (formatCardClick b (formatCardClick a s)).convertBtnDisabled = false := by
  have hb1 : b < (formatCardClick a s).formatCards.length := by
    rw [formatCardClick_length]; exact hb
  have hget : ∀ k, (formatCardClick b (formatCardClick a s)).formatCards[k]? =
      (s.formatCards[k]?).map fun (c : FormatCard) => { c with selected := decide (b = k) } := by
    intro k
    rw [formatCardClick_getElem? b _ hb1, formatCardClick_getElem? a s ha]
    cases s.formatCards[k]? <;> rfl
  refine ⟨?_, ?_, formatCardClick_selectedCount b _ hb1, ?_, ?_, ?_⟩
  · rw [formatCardClick_length, formatCardClick_length]
  · intro k c hk
    rw [hget k] at hk
    cases hc : s.formatCards[k]? with
    | none => simp [hc] at hk
    | some c0 =>
      simp only [hc, Option.map_some', Option.some.injEq] at hk
      subst hk
      simp [eq_comm]
  · apply List.ext_getElem?
    intro k
    simp only [List.getElem?_map, hget k]
    cases s.formatCards[k]? <;> rfl
  · have h1 : (formatCardClick a s).formatCards[b]? =
        some { s.formatCards[b] with selected := decide (a = b) } := by
      rw [formatCardClick_getElem? a s ha, List.getElem?_eq_getElem hb]; rfl
    have h2 := List.getElem?_eq_getElem hb1
    rw [h1] at h2
    rw [formatCardClick_eq b _ hb1]
    show ((formatCardClick a s).formatCards[b]).format = _
    rw [← Option.some.inj h2]
  · rw [formatCardClick_eq b _ hb1]

theorem formatCardClick_twice_selects_last_witness :
    (formatCardClick 1 (formatCardClick 0 (pageLoad twoCards))).formatCards =
      [{ format := some "docx", selected := false }, { format := some "xlsx", selected := true }] ∧
    selectedCount (formatCardClick 1 (formatCardClick 0 (pageLoad twoCards))) = 1 ∧
    (formatCardClick 1 (formatCardClick 0 (pageLoad twoCards))).selectedFormat = some "xlsx" :=
  have h := formatCardClick_twice_selects_last (pageLoad twoCards) 0 1 (by decide) (by decide)
  ⟨by decide, h.2.2.1, h.2.2.2.2.1⟩

/-! ## The results list -/

theorem foldl_downloadLinks (eng : Engine) (ds : List Download) (s : State) :
    ds.foldl
      (fun acc download =>
        { acc with downloadLinks := eng.innerHTML (acc.downloadLinks ++ linkHTML download) })
      s =
    { s with
      downloadLinks :=
        ds.foldl (fun html d => eng.innerHTML (html ++ linkHTML d)) s.downloadLinks } := by
  induction ds generalizing s with
  | nil => rfl
  | cons d ds ih => simp only [List.foldl_cons, ih]

theorem showResults_some (eng : Engine) (ds : List Download) (s : State) :
    showResults eng (some ds) s =
      Except.ok
        { s with
          resultsSectionHidden := false
          downloadLinks :=
            ds.foldl (fun html d => eng.innerHTML (html ++ linkHTML d)) (eng.innerHTML "")
          scrolledTo := some Scroll.resultsSection } := by
  simp only [showResults, foldl_downloadLinks]

theorem foldl_append_eq_join (l : List String) (init : String) :
    l.foldl (fun html x => html ++ x) init = init ++ String.join l := by
  induction l generalizing init with
  | nil => simp [String.join]
  | cons x l ih =>
    have hj : String.join (x :: l) = x ++ String.join l := by
      simp only [String.join, List.foldl_cons]
      rw [ih, ih]
      simp [String.append_assoc]
    rw [List.foldl_cons, ih, hj, String.append_assoc]

theorem endsWithDocx_iff (name : String) :
    endsWithDocx name = true ↔ ∃ p : String, name = p ++ ".docx" := by
  unfold endsWithDocx
  rw [List.isSuffixOf_iff_suffix]
  constructor
  · rintro ⟨l, hl⟩
    refine ⟨⟨l⟩, String.ext ?_⟩
    rw [String.data_append]
    exact hl.symm
  · rintro ⟨p, hp⟩
    refine ⟨p.data, ?_⟩
    rw [hp]
    exact (String.data_append p ".docx").symm

theorem linkHTML_kind (d : Download) :
    (endsWithDocx d.name = true →
      linkHTML d = linkTemplate "bi-file-word" d.name d.url "primary") ∧
    (endsWithDocx d.name = false →
      linkHTML d = linkTemplate "bi-file-excel" d.name d.url "success") := by
  constructor <;> intro h <;> simp [linkHTML, linkTemplate, h]

theorem linkHTML_markupInUrl : linkHTML markupInUrl = linkHTML markupInName := by
  have h1 : endsWithDocx markupInUrl.name = false := by decide
  have h2 : endsWithDocx markupInName.name = false := by decide
  rw [(linkHTML_kind _).2 h1, (linkHTML_kind _).2 h2]
  simp only [linkTemplate, markupInUrl, markupInName, linkMiddle, String.append_assoc]

/-- C9, as the code has it: for every downloads list `showResults` completes,
shows the results region, discards the previous markup of the list and then,
download by download in the list's order, reads the list's markup back,
appends one instance of the link template and assigns the result.  The
instance holds the download's name and url as they are (unescaped), with icon
`bi-file-word` and colour `primary` when the name ends with `.docx`, and with
icon `bi-file-excel` and colour `success` for every other name.  With a getter
that returns markup as assigned, the list's markup is the instances in
order. -/
theorem showResults_appends_one_template_per_download (eng : Engine) (ds : List Download)
    (s : State) :
    ∃ r, showResults eng (some ds) s = Except.ok r ∧
      r.resultsSectionHidden = false ∧
      r.downloadLinks =
        ds.foldl (fun html d => eng.innerHTML (html ++ linkHTML d)) (eng.innerHTML "") ∧
      ((∀ markup, eng.innerHTML markup = markup) →
        r.downloadLinks = String.join (ds.map linkHTML)) ∧
      ∀ d ∈ ds,
        ((∃ p : String, d.name = p ++ ".docx") →
          linkHTML d = linkTemplate "bi-file-word" d.name d.url "primary") ∧
        ((¬ ∃ p : String, d.name = p ++ ".docx") →
          linkHTML d = linkTemplate "bi-file-excel" d.name d.url "success") := by
  refine ⟨_, showResults_some eng ds s, rfl, rfl, ?_, ?_⟩
  · intro hid
    have hf : (fun html d => eng.innerHTML (html ++ linkHTML d)) =
        fun html d => html ++ linkHTML d := by
      funext html d
      exact hid _
    show ds.foldl (fun html d => eng.innerHTML (html ++ linkHTML d)) (eng.innerHTML "") = _
    rw [hf, hid, ← List.foldl_map, foldl_append_eq_join]
    simp
  · intro d _
    rw [← endsWithDocx_iff]
    refine ⟨(linkHTML_kind d).1, fun h => (linkHTML_kind d).2 ?_⟩
    simpa using h

theorem showResults_appends_one_template_per_download_witness :
    ∃ r, showResults v8 convertedOut.downloads (pageLoad twoCards) = Except.ok r ∧
      r.downloadLinks = linkTemplate "bi-file-word" "out.docx" "/dl/out.docx" "primary" :=
  (showResults_appends_one_template_per_download v8
    [{ name := "out.docx", url := "/dl/out.docx" }] (pageLoad twoCards)).elim fun r hr =>
      ⟨r, hr.1, by
        rw [hr.2.2.1]
        exact (hr.2.2.2.2 { name := "out.docx", url := "/dl/out.docx" }
          (List.mem_singleton.mpr rfl)).1 ⟨"out", by decide⟩⟩

/-- C9 as stated fails: two downloads with different names and different urls
get the same markup, so `showResults` leaves the same page for either,
whatever the browser; no reading of the list's markup gives, for every
downloads list, one entry per download with that download's name and url. -/
theorem showResults_entries_not_the_downloads :
    markupInUrl.name ≠ markupInName.name ∧
    markupInUrl.url ≠ markupInName.url ∧
    (∀ (eng : Engine) (s : State),
      showResults eng (some [markupInUrl]) s = showResults eng (some [markupInName]) s) ∧
    ¬ ∃ shown : String → List (String × String),
        ∀ (eng : Engine) (ds : List Download) (s : State),
          ∃ r, showResults eng (some ds) s = Except.ok r ∧
            shown r.downloadLinks = ds.map fun d => (d.name, d.url) := by
  have hsame : ∀ (eng : Engine) (s : State),
      showResults eng (some [markupInUrl]) s = showResults eng (some [markupInName]) s := by
    intro eng s
    simp only [showResults_some, List.foldl_cons, List.foldl_nil, linkHTML_markupInUrl]
  refine ⟨by decide, by decide, hsame, ?_⟩
  rintro ⟨shown, h⟩
  obtain ⟨r1, hr1, hs1⟩ := h v8 [markupInUrl] (pageLoad [])
  obtain ⟨r2, hr2, hs2⟩ := h v8 [markupInName] (pageLoad [])
  rw [hsame v8 (pageLoad []), hr2] at hr1
  cases hr1
  rw [hs2] at hs1
  exact absurd hs1 (by decide)

/-! ## After a conversion -/

theorem convertDocument_eq_of_ready (s : State) (fn fmt : String)
    (hfn : serverFilenameOf s = some fn) (hfn0 : fn ≠ "")
    (hfmt : s.selectedFormat = some fmt) (hfmt0 : fmt ≠ "") :
    convertDocument s =
      (showProgress "Converting document..." 50 (hideError s),
        some { filename := fn, format := fmt }) := by
  have hf : s.uploadedFile.isSome = true := by
    cases hu : s.uploadedFile with
    | none => simp [serverFilenameOf, hu] at hfn
    | some f => rfl
  simp [convertDocument, hf, hfn, hfmt, truthy, hfn0, hfmt0]

theorem convertDocument_request_congr (a b : State)
    (hu : a.uploadedFile = b.uploadedFile) (hf : a.selectedFormat = b.selectedFormat) :
    (convertDocument a).2 = (convertDocument b).2 := by
  unfold convertDocument serverFilenameOf
  rw [hu, hf]
  split <;> rfl

theorem convertBtnClick_request_congr (a b : State)
    (hu : a.uploadedFile = b.uploadedFile) (hf : a.selectedFormat = b.selectedFormat)
    (hd : a.convertBtnDisabled = b.convertBtnDisabled)
    (hh : a.convertBtnHidden = b.convertBtnHidden) :
    (convertBtnClick a).2 = (convertBtnClick b).2 := by
  unfold convertBtnClick
  rw [hd, hh]
  split
  · rfl
  · exact convertDocument_request_congr a b hu hf

theorem showResultsTimeout_some (eng : Engine) (ds : List Download) (w : State) :
    showResultsTimeout eng { downloads := some ds } w =
      Outcome.completed
        { hideProgress w with
          resultsSectionHidden := false
          downloadLinks :=
            ds.foldl (fun html d => eng.innerHTML (html ++ linkHTML d)) (eng.innerHTML "")
          scrolledTo := some Scroll.resultsSection } := by
  simp only [showResultsTimeout, showResults_some]

/-- C8, as the code has it: a successful conversion does not disable
conversion.  In whatever state `u` the response arrives and in whatever state
`w` the delayed callback runs, handling them shows the results region and
leaves `uploadedFile`, `selectedFormat` and the convert button's `disabled` and
`d-none` flags as found, so that `convertDocument` and a click on the button
issue afterwards exactly the request they would have issued before.  On a run
from a state `s` with a non-empty `serverFilename` and format in which nothing
else happens meanwhile, that is a further `/convert` request for the same
filename and format; where `removeFile` ran meanwhile (a blocked `w`) it is
none; and after `resetForm` it is none. -/
theorem convert_again_after_success (eng : Engine) (s u w : State)
    (data : ConvertResponse) (ds : List Download)
    (hst : data.status = "success") (hds : data.downloads = some ds) :
    ((convertDocumentResume (Fetched.json data) u).2 = some { downloads := some ds } ∧
      (convertDocumentResume (Fetched.json data) u).1.uploadedFile = u.uploadedFile ∧
      (convertDocumentResume (Fetched.json data) u).1.selectedFormat = u.selectedFormat ∧
      (convertDocumentResume (Fetched.json data) u).1.convertBtnDisabled =
        u.convertBtnDisabled ∧
      (convertDocumentResume (Fetched.json data) u).1.convertBtnHidden = u.convertBtnHidden ∧
      (convertDocument (convertDocumentResume (Fetched.json data) u).1).2 =
        (convertDocument u).2 ∧
      (convertBtnClick (convertDocumentResume (Fetched.json data) u).1).2 =
        (convertBtnClick u).2) ∧
    (∃ r, showResultsTimeout eng { downloads := some ds } w = Outcome.completed r ∧
      r.resultsSectionHidden = false ∧
      r.uploadedFile = w.uploadedFile ∧
      r.selectedFormat = w.selectedFormat ∧
      r.convertBtnDisabled = w.convertBtnDisabled ∧
      r.convertBtnHidden = w.convertBtnHidden ∧
      (convertDocument r).2 = (convertDocument w).2 ∧
      (convertBtnClick r).2 = (convertBtnClick w).2 ∧
      (Blocked w → (convertDocument r).2 = none ∧ (convertBtnClick r).2 = none) ∧
      (convertDocument (resetForm r)).2 = none ∧
      (convertBtnClick (resetForm r)).2 = none) ∧
    (∀ fn fmt : String, serverFilenameOf s = some fn → fn ≠ "" →
      s.selectedFormat = some fmt → fmt ≠ "" →
      (convertDocument s).2 = some { filename := fn, format := fmt } ∧
      ∃ r, showResultsTimeout eng { downloads := some ds }
            (convertDocumentResume (Fetched.json data) (convertDocument s).1).1 =
          Outcome.completed r ∧
        r.resultsSectionHidden = false ∧
        r.uploadedFile = s.uploadedFile ∧
        r.selectedFormat = s.selectedFormat ∧
        r.convertBtnDisabled = s.convertBtnDisabled ∧
        r.convertBtnHidden = s.convertBtnHidden ∧
        (convertDocument r).2 = some { filename := fn, format := fmt } ∧
        (s.convertBtnDisabled = false → s.convertBtnHidden = false →
          (convertBtnClick r).2 = some { filename := fn, format := fmt })) := by
  have e2 : ∀ v : State, convertDocumentResume (Fetched.json data) v =
      (showProgress "Conversion complete!" 100 v, some { downloads := some ds }) := by
    intro v
    simp [convertDocumentResume, hst, hds]
  have resume : ∀ v : State,
      (convertDocumentResume (Fetched.json data) v).2 = some { downloads := some ds } ∧
      (convertDocumentResume (Fetched.json data) v).1.uploadedFile = v.uploadedFile ∧
      (convertDocumentResume (Fetched.json data) v).1.selectedFormat = v.selectedFormat ∧
      (convertDocumentResume (Fetched.json data) v).1.convertBtnDisabled =
        v.convertBtnDisabled ∧
      (convertDocumentResume (Fetched.json data) v).1.convertBtnHidden =
        v.convertBtnHidden := by
    intro v
    rw [e2 v]
    exact ⟨rfl, rfl, rfl, rfl, rfl⟩
  have timer : ∀ v : State, ∃ r,
      showResultsTimeout eng { downloads := some ds } v = Outcome.completed r ∧
      r.resultsSectionHidden = false ∧
      r.uploadedFile = v.uploadedFile ∧
      r.selectedFormat = v.selectedFormat ∧
      r.convertBtnDisabled = v.convertBtnDisabled ∧
      r.convertBtnHidden = v.convertBtnHidden :=
    fun v => ⟨_, showResultsTimeout_some eng ds v, rfl, rfl, rfl, rfl, rfl⟩
  have reset : ∀ v : State, (convertDocument (resetForm v)).2 = none := by
    intro v
    rw [convertDocument_eq_of_blocked (resetForm v) (Or.inl rfl)]
  have resetClick : ∀ v : State, (convertBtnClick (resetForm v)).2 = none := by
    intro v
    have hh : (resetForm v).convertBtnHidden = true := rfl
    simp [convertBtnClick, hh]
  have blockedClick : ∀ v : State, Blocked v → (convertBtnClick v).2 = none := by
    intro v hv
    unfold convertBtnClick
    split
    · rfl
    · rw [convertDocument_eq_of_blocked v hv]
  refine ⟨?_, ?_, ?_⟩
  · obtain ⟨h1, h2, h3, h4, h5⟩ := resume u
    exact ⟨h1, h2, h3, h4, h5,
      convertDocument_request_congr (convertDocumentResume (Fetched.json data) u).1 u h2 h3,
      convertBtnClick_request_congr (convertDocumentResume (Fetched.json data) u).1 u
        h2 h3 h4 h5⟩
  · obtain ⟨r, hr, h1, h2, h3, h4, h5⟩ := timer w
    have hc := convertDocument_request_congr r w h2 h3
    have hk := convertBtnClick_request_congr r w h2 h3 h4 h5
    refine ⟨r, hr, h1, h2, h3, h4, h5, hc, hk, ?_, reset r, resetClick r⟩
    intro hb
    exact ⟨hc.trans (by rw [convertDocument_eq_of_blocked w hb]), hk.trans (blockedClick w hb)⟩
  · intro fn fmt hfn hfn0 hfmt hfmt0
    have e1 := convertDocument_eq_of_ready s fn fmt hfn hfn0 hfmt hfmt0
    have hreq : (convertDocument s).2 = some { filename := fn, format := fmt } := by rw [e1]
    have hs1 : (convertDocument s).1.uploadedFile = s.uploadedFile ∧
        (convertDocument s).1.selectedFormat = s.selectedFormat ∧
        (convertDocument s).1.convertBtnDisabled = s.convertBtnDisabled ∧
        (convertDocument s).1.convertBtnHidden = s.convertBtnHidden := by
      rw [e1]
      exact ⟨rfl, rfl, rfl, rfl⟩
    obtain ⟨a1, a2, a3, a4⟩ := hs1
    obtain ⟨_, b2, b3, b4, b5⟩ := resume (convertDocument s).1
    obtain ⟨r, hr, c1, c2, c3, c4, c5⟩ :=
      timer (convertDocumentResume (Fetched.json data) (convertDocument s).1).1
    have hu : r.uploadedFile = s.uploadedFile := c2.trans (b2.trans a1)
    have hf : r.selectedFormat = s.selectedFormat := c3.trans (b3.trans a2)
    have hd : r.convertBtnDisabled = s.convertBtnDisabled := c4.trans (b4.trans a3)
    have hh : r.convertBtnHidden = s.convertBtnHidden := c5.trans (b5.trans a4)
    refine ⟨hreq, r, hr, c1, hu, hf, hd, hh,
      (convertDocument_request_congr r s hu hf).trans hreq, ?_⟩
    intro hd0 hh0
    refine (convertBtnClick_request_congr r s hu hf hd hh).trans ?_
    simp only [convertBtnClick, hd0, hh0, Bool.or_self, Bool.false_eq_true, if_false]
    exact hreq

theorem convert_again_after_success_witness :
    (convertDocument readyToConvert).2 = some { filename := "abc.pdf", format := "docx" } ∧
    ∃ r,
      showResultsTimeout v8 { downloads := convertedOut.downloads }
        (convertDocumentResume (Fetched.json convertedOut)
          (convertDocument readyToConvert).1).1 = Outcome.completed r ∧
      (convertDocument r).2 = some { filename := "abc.pdf", format := "docx" } ∧
      (convertBtnClick r).2 = some { filename := "abc.pdf", format := "docx" } ∧
      ∃ q,
        showResultsTimeout v8 { downloads := convertedOut.downloads }
          (convertDocumentResume (Fetched.json convertedOut)
            (removeFile (convertDocument readyToConvert).1)).1 = Outcome.completed q ∧
        q.resultsSectionHidden = false ∧
        q.uploadedFile = none ∧
        (convertDocument q).2 = none :=
  have h := (convert_again_after_success v8 readyToConvert readyToConvert readyToConvert
    convertedOut [{ name := "out.docx", url := "/dl/out.docx" }] rfl rfl).2.2
    "abc.pdf" "docx" (by decide) (by decide) (by decide) (by decide)
  have g := (convert_again_after_success v8 readyToConvert readyToConvert
    (convertDocumentResume (Fetched.json convertedOut)
      (removeFile (convertDocument readyToConvert).1)).1
    convertedOut [{ name := "out.docx", url := "/dl/out.docx" }] rfl rfl).2.1
  ⟨h.1, h.2.elim fun r hr =>
    ⟨r, hr.1, hr.2.2.2.2.2.2.1, hr.2.2.2.2.2.2.2 (by decide) (by decide),
      g.elim fun q hq =>
        ⟨q, hq.1, hq.2.1, hq.2.2.1.trans (by decide),
          (hq.2.2.2.2.2.2.2.2.1 (by decide)).1⟩⟩⟩

/-- C8 as stated fails: in the state reached by a completed conversion the
results are shown, the convert button is enabled and visible, no `resetForm`
has run, and both a click on the button and `convertDocument` itself issue
another `/convert` request. -/
theorem convert_not_disabled_after_conversion :
    afterConversion.resultsSectionHidden = false ∧
    afterConversion.uploadedFile = some { reportPdf with serverFilename := some "abc.pdf" } ∧
    afterConversion.selectedFormat = some "docx" ∧
    afterConversion.convertBtnDisabled = false ∧
    afterConversion.convertBtnHidden = false ∧
    (convertBtnClick afterConversion).2 = some { filename := "abc.pdf", format := "docx" } ∧
    (convertDocument afterConversion).2 = some { filename := "abc.pdf", format := "docx" } := by
  decide

/-! ## Exceptions -/

/-- C4 at the failing input: a `/convert` response with status `success` and
no `downloads` member makes the handler schedule the delayed callback with
`undefined`; the callback then throws in `downloads.forEach`, outside any
`try`: the exception is uncaught, the results region has been revealed and
emptied, and the error region is not touched.  The same kind of fault in the
upload handler (a preview without `type`) is thrown inside its `try` and ends
in the error state. -/
theorem convert_success_without_downloads_uncaught (eng : Engine) (s : State) (g : File)
    (p : Preview) :
    (convertDocumentResume (Fetched.json convertedBare) s).2 = some { downloads := none } ∧
    showResultsTimeout eng { downloads := none }
        (convertDocumentResume (Fetched.json convertedBare) s).1 =
      Outcome.uncaught (eng.readOnUndefined "forEach")
        { hideProgress (showProgress "Conversion complete!" 100 s) with
          resultsSectionHidden := false
          downloadLinks := eng.innerHTML "" } ∧
    (showResultsTimeout eng { downloads := none }
        (convertDocumentResume (Fetched.json convertedBare) s).1).state.errorSectionHidden =
      s.errorSectionHidden ∧
    (showResultsTimeout eng { downloads := none }
        (convertDocumentResume (Fetched.json convertedBare) s).1).state.errorMessage =
      s.errorMessage ∧
    (uploadFileResume eng g
        (Fetched.json { status := "success", filename := some "abc.pdf", message := none,
                        preview := some { p with type := none } })
        { s with uploadedFile := some g }).errorSectionHidden = false ∧
    (uploadFileResume eng g
        (Fetched.json { status := "success", filename := some "abc.pdf", message := none,
                        preview := some { p with type := none } })
        { s with uploadedFile := some g }).errorMessage =
      "Upload failed: " ++ eng.readOnUndefined "toUpperCase" := by
  refine ⟨rfl, rfl, rfl, rfl, ?_, ?_⟩ <;>
    simp [uploadFileResume, uploadFileTry, showPreview, showError, hideProgress]

end SmartDocumentConverter
